import Mathlib

/-!
Shallow embedding of the session/frame synchronization layer of
`bevy_openxr` (`src/lib.rs`): the per-tick event-poll loop, the
frame-bracket systems `xr_begin_frame`, `post_frame` and `end_frame`,
and the plugin `build`/`ready` logic.

Runtime calls are recorded in a trace; each fallible runtime call is
driven by an environment (`RtEnv`) saying whether the call succeeds.
A Rust `.unwrap()` on a failing call is modelled as a `panicked` flag:
once it is set, no further code of the system runs.
-/

namespace BevyOpenxr

/-- OpenXR session lifecycle states distinguished by the code's match. -/
inductive XrSessionState
  | idle
  | ready
  | synchronized
  | visible
  | focused
  | stopping
  | exiting
  | lossPending
deriving DecidableEq, Repr

/-- Runtime events handled by the poll loop in `xr_begin_frame`. -/
inductive XrEvent
  | sessionStateChanged (s : XrSessionState)
  | instanceLossPending
  | eventsLost (n : Nat)
  | interactionProfileChanged
deriving DecidableEq, Repr

/-- One result of a `poll_event` call: `Ok(Some(event))`, or `Err(_)`
(the loop itself ends when the list is exhausted, i.e. `Ok(None)`). -/
inductive PollItem
  | ok (e : XrEvent)
  | fail
deriving DecidableEq, Repr

/-- View configuration types; the code only ever uses primary stereo. -/
inductive ViewType
  | primaryMono
  | primaryStereo
deriving DecidableEq, Repr

/-- `const VIEW_TYPE: xr::ViewConfigurationType = PRIMARY_STEREO`. -/
def VIEW_TYPE : ViewType := .primaryStereo

/-- The runtime calls issued by this layer, recorded in traces. -/
inductive RtCall
  | beginSession (vt : ViewType)
  | endSession
  | waitFrame
  | beginFrame
  | locateViews
  | acquireImage
  | waitImage
  | releaseImage
  | endFrame
deriving DecidableEq, Repr

/-- Log entries: `warn!` and `info!`. -/
inductive LogEntry
  | warn
  | info
deriving DecidableEq, Repr

/-- Frame timing produced by `FrameWaiter.wait()`. -/
structure FrameTiming where
  predictedDisplayTime : Int
deriving DecidableEq, Repr

/-- A manual texture view: backing texture view id, size and format. -/
structure ManualTextureView where
  texture_view : Nat
  size : Nat × Nat
  format : Nat
deriving DecidableEq, Repr

/-- `pub const LEFT_XR_TEXTURE_HANDLE: ManualTextureViewHandle =
ManualTextureViewHandle(1208214591)`. -/
def LEFT_XR_TEXTURE_HANDLE : Nat := 1208214591

/-- `pub const RIGHT_XR_TEXTURE_HANDLE: ManualTextureViewHandle =
ManualTextureViewHandle(3383858418)`. -/
def RIGHT_XR_TEXTURE_HANDLE : Nat := 3383858418

/-- `ManualTextureViews` insert: overwrite the entry at the key if
present, else append (HashMap-insert semantics). -/
def mtvInsert (k : Nat) (v : ManualTextureView) :
    List (Nat × ManualTextureView) → List (Nat × ManualTextureView)
  | [] => [(k, v)]
  | (k2, v2) :: rest =>
    if k = k2 then (k, v) :: rest else (k2, v2) :: mtvInsert k v rest

/-- `ManualTextureViews` lookup by handle. -/
def mtvGet (k : Nat) : List (Nat × ManualTextureView) → Option ManualTextureView
  | [] => none
  | (k2, v2) :: rest => if k = k2 then some v2 else mtvGet k rest

/-- Environment driving a single tick: the pending runtime events and
the success/failure of each runtime call the tick may issue. -/
structure RtEnv where
  pollItems : List PollItem
  beginSessionOk : Bool
  endSessionOk : Bool
  waitResult : Option FrameTiming
  beginFrameOk : Bool
  locateResult : Option Nat
  acquireOk : Bool
  waitImageOk : Bool
  releaseOk : Bool
  endFrameOk : Bool
  renderViews : Nat × Nat
  resolution : Nat × Nat
  format : Nat
deriving DecidableEq, Repr

/-- The mutable resources shared by the systems: the session-running
flag, the `XrFrameState` slot, the `XrViews` slot and the
`ManualTextureViews` map. -/
structure XrState where
  sessionRunning : Bool
  frameState : FrameTiming
  views : Nat
  manualTextureViews : List (Nat × ManualTextureView)
deriving DecidableEq, Repr

/-- How the poll loop ended: fell off the end of the queue, returned
early from `xr_begin_frame` (Exiting/LossPending/InstanceLossPending),
or panicked on a failing `.unwrap()`. -/
inductive PollExit
  | normal
  | aborted
  | panicked
deriving DecidableEq, Repr

/-- Result of the poll loop: calls issued, log entries, the value of the
session-running flag afterwards, and how the loop ended. -/
structure PollResult where
  trace : List RtCall
  log : List LogEntry
  running : Bool
  exit : PollExit
deriving DecidableEq, Repr

/-- The `while let Some(event) = instance.poll_event(..).unwrap()` loop
of `xr_begin_frame`.  `READY` issues `session.begin(VIEW_TYPE).unwrap()`
then stores `true`; `STOPPING` issues `session.end().unwrap()` then
stores `false`; `EXITING`/`LOSS_PENDING` and `InstanceLossPending`
return from the whole system; `EventsLost` logs a warning; every
`SessionStateChanged` logs info first. -/
def pollLoop (env : RtEnv) : List PollItem → Bool → PollResult
  | [], r => ⟨[], [], r, .normal⟩
  | .fail :: _, r => ⟨[], [], r, .panicked⟩
  | .ok e :: rest, r =>
    match e with
    | .sessionStateChanged s =>
      match s with
      | .ready =>
        if env.beginSessionOk then
          let res := pollLoop env rest true
          ⟨.beginSession VIEW_TYPE :: res.trace, .info :: res.log, res.running, res.exit⟩
        else ⟨[.beginSession VIEW_TYPE], [.info], r, .panicked⟩
      | .stopping =>
        if env.endSessionOk then
          let res := pollLoop env rest false
          ⟨.endSession :: res.trace, .info :: res.log, res.running, res.exit⟩
        else ⟨[.endSession], [.info], r, .panicked⟩
      | .exiting => ⟨[], [.info], r, .aborted⟩
      | .lossPending => ⟨[], [.info], r, .aborted⟩
      | _ =>
        let res := pollLoop env rest r
        ⟨res.trace, .info :: res.log, res.running, res.exit⟩
    | .instanceLossPending => ⟨[], [], r, .aborted⟩
    | .eventsLost _ =>
      let res := pollLoop env rest r
      ⟨res.trace, .warn :: res.log, res.running, res.exit⟩
    | .interactionProfileChanged =>
      let res := pollLoop env rest r
      ⟨res.trace, res.log, res.running, res.exit⟩

/-- Result of running one system: calls issued, log entries, resulting
shared state, and whether an `.unwrap()` panicked. -/
structure RunResult where
  trace : List RtCall
  log : List LogEntry
  state : XrState
  panicked : Bool
deriving DecidableEq, Repr

/-- The `xr_begin_frame` system (Stage A, PreUpdate): poll events; then
`frame_waiter.wait()` (on `Err`, warn and return, leaving the
`XrFrameState` slot unchanged); then `swapchain.begin().unwrap()`; then
`session.locate_views(..).unwrap()` writing the `XrViews` slot. -/
def xr_begin_frame (env : RtEnv) (st : XrState) : RunResult :=
  let p := pollLoop env env.pollItems st.sessionRunning
  let st1 := { st with sessionRunning := p.running }
  match p.exit with
  | .panicked => ⟨p.trace, p.log, st1, true⟩
  | .aborted => ⟨p.trace, p.log, st1, false⟩
  | .normal =>
    match env.waitResult with
    | none => ⟨p.trace ++ [.waitFrame], p.log ++ [.warn], st1, false⟩
    | some t =>
      let st2 := { st1 with frameState := t }
      if env.beginFrameOk then
        match env.locateResult with
        | some v =>
          ⟨p.trace ++ [.waitFrame, .beginFrame, .locateViews], p.log,
            { st2 with views := v }, false⟩
        | none =>
          ⟨p.trace ++ [.waitFrame, .beginFrame, .locateViews], p.log, st2, true⟩
      else ⟨p.trace ++ [.waitFrame, .beginFrame], p.log, st2, true⟩

/-- The `post_frame` system (Stage B, pre-submission):
`swapchain.acquire_image().unwrap()`, `swapchain.wait_image().unwrap()`,
then publish the two render views into `ManualTextureViews` at the two
fixed handles. -/
def post_frame (env : RtEnv) (st : XrState) : RunResult :=
  if env.acquireOk then
    if env.waitImageOk then
      let left : ManualTextureView := ⟨env.renderViews.1, env.resolution, env.format⟩
      let right : ManualTextureView := ⟨env.renderViews.2, env.resolution, env.format⟩
      let mtv := mtvInsert RIGHT_XR_TEXTURE_HANDLE right
        (mtvInsert LEFT_XR_TEXTURE_HANDLE left st.manualTextureViews)
      ⟨[.acquireImage, .waitImage], [], { st with manualTextureViews := mtv }, false⟩
    else ⟨[.acquireImage, .waitImage], [], st, true⟩
  else ⟨[.acquireImage], [], st, true⟩

/-- The `end_frame` system (Stage B, post-submission):
`swapchain.release_image().unwrap()`, then `swapchain.end(..)` whose
`Err` is only logged with `warn!`. -/
def end_frame (env : RtEnv) (st : XrState) : RunResult :=
  if env.releaseOk then
    if env.endFrameOk then ⟨[.releaseImage, .endFrame], [], st, false⟩
    else ⟨[.releaseImage, .endFrame], [.warn], st, false⟩
  else ⟨[.releaseImage], [], st, true⟩

/-- Tri-state plugin enable status (`XrEnableStatus`). -/
inductive XrEnableStatus
  | waiting
  | enabled
  | disabled
deriving DecidableEq, Repr

/-- Modelled from the spec: the `xr_only()` run condition lives in the
`xr_init` module, which is not part of the provided source.  Section 4.1
says all per-frame systems are registered conditionally on
status == Enabled, and section 3 says the SessionRunningFlag is read by
every gating predicate that decides whether XR-frame systems execute. -/
def xr_only (status : XrEnableStatus) (running : Bool) : Bool :=
  status == .enabled && running

/-- One full tick of the frame bracket: Stage A (`xr_begin_frame` in
PreUpdate), then `post_frame` and `end_frame` in the render schedule,
each system gated by its own `run_if(xr_only())` evaluation.  A panic in
any system stops the tick. -/
def runTick (status : XrEnableStatus) (env : RtEnv) (st : XrState) : RunResult :=
  if xr_only status st.sessionRunning then
    let a := xr_begin_frame env st
    if a.panicked then a
    else
      let b :=
        if xr_only status a.state.sessionRunning then post_frame env a.state
        else ⟨[], [], a.state, false⟩
      if b.panicked then ⟨a.trace ++ b.trace, a.log ++ b.log, b.state, true⟩
      else
        let c :=
          if xr_only status b.state.sessionRunning then end_frame env b.state
          else ⟨[], [], b.state, false⟩
        ⟨a.trace ++ b.trace ++ c.trace, a.log ++ b.log ++ c.log, c.state, c.panicked⟩
  else ⟨[], [], st, false⟩

/-- A minimal model of the `App` as far as `OpenXrPlugin::build` and
`OpenXrPlugin::ready` touch it: the `XrEnableStatus` resource slot (and
whether the XR data bundle was inserted). -/
structure AppModel where
  status : Option XrEnableStatus
  xrDataPresent : Bool
deriving DecidableEq, Repr

/-- `OpenXrPlugin::build`: on `initialize_xr_graphics` success, insert
the XR resources and `XrEnableStatus::Enabled`; on failure, warn and
insert `XrEnableStatus::Disabled`.  The second component records the
sequence of writes to the status resource during build. -/
def build (initOk : Bool) (app : AppModel) : AppModel × List XrEnableStatus :=
  if initOk then
    ({ app with status := some .enabled, xrDataPresent := true }, [.enabled])
  else
    ({ app with status := some .disabled }, [.disabled])

/-- `OpenXrPlugin::ready`:
`app.world.get_resource::<XrEnableStatus>().map(|frr| *frr != Waiting).unwrap_or(true)`. -/
def ready (app : AppModel) : Bool :=
  match app.status with
  | some s => s != .waiting
  | none => true

/-- The six frame-bracket runtime calls of spec section 4.7. -/
def isFrameCall : RtCall → Bool
  | .waitFrame => true
  | .beginFrame => true
  | .acquireImage => true
  | .waitImage => true
  | .releaseImage => true
  | .endFrame => true
  | _ => false

/-- Session lifecycle calls (the only calls the poll loop can issue). -/
def isSessionCall : RtCall → Bool
  | .beginSession _ => true
  | .endSession => true
  | _ => false

/-- Events whose observation makes `xr_begin_frame` return immediately:
`EXITING`, `LOSS_PENDING` session states and `InstanceLossPending`. -/
def isAbortItem : PollItem → Bool
  | .ok (.sessionStateChanged .exiting) => true
  | .ok (.sessionStateChanged .lossPending) => true
  | .ok .instanceLossPending => true
  | _ => false

/-- The poll items actually observed by the loop: everything up to and
including the first abort item, cut off (exclusively) at a poll failure. -/
def observed : List PollItem → List PollItem
  | [] => []
  | .fail :: _ => []
  | .ok e :: rest =>
    if isAbortItem (.ok e) then [.ok e] else .ok e :: observed rest

/-- Count of runtime calls equal to `c` in a trace. -/
def countCall (c : RtCall) : List RtCall → Nat
  | [] => 0
  | c2 :: rest => (if c2 = c then 1 else 0) + countCall c rest

/-- Count of `SessionStateChanged s` items in a poll-item list. -/
def countState (s : XrSessionState) : List PollItem → Nat
  | [] => 0
  | .ok (.sessionStateChanged s2) :: rest =>
    (if s2 = s then 1 else 0) + countState s rest
  | _ :: rest => countState s rest

/-- The session-running flag obtained by folding Ready/Stopping items
over an initial value. -/
def flagAfter (r : Bool) : List PollItem → Bool
  | [] => r
  | .ok (.sessionStateChanged .ready) :: rest => flagAfter true rest
  | .ok (.sessionStateChanged .stopping) :: rest => flagAfter false rest
  | _ :: rest => flagAfter r rest

/-- An environment where every runtime call succeeds and the event
queue is empty. -/
def envAllOk : RtEnv :=
  { pollItems := []
    beginSessionOk := true
    endSessionOk := true
    waitResult := some ⟨100⟩
    beginFrameOk := true
    locateResult := some 5
    acquireOk := true
    waitImageOk := true
    releaseOk := true
    endFrameOk := true
    renderViews := (21, 22)
    resolution := (2064, 2208)
    format := 43 }

/-- Like `envAllOk` but `frame_waiter.wait()` fails. -/
def envWaitFail : RtEnv := { envAllOk with waitResult := none }

/-- Like `envAllOk` but `swapchain.acquire_image()` fails. -/
def envAcquireFail : RtEnv := { envAllOk with acquireOk := false }

/-- Like `envAllOk` but `swapchain.end(..)` fails. -/
def envEndFrameFail : RtEnv := { envAllOk with endFrameOk := false }

/-- A Ready event arrives and `session.begin(VIEW_TYPE)` fails. -/
def envBeginSessionFail : RtEnv :=
  { envAllOk with
    pollItems := [.ok (.sessionStateChanged .ready)]
    beginSessionOk := false }

/-- The `poll_event` call itself fails at the transport level. -/
def envPollFail : RtEnv := { envAllOk with pollItems := [.fail] }

/-- An Exiting session-state event is pending. -/
def envExiting : RtEnv :=
  { envAllOk with pollItems := [.ok (.sessionStateChanged .exiting)] }

/-- A concrete shared state: session running, with one unrelated manual
texture view registered at handle 7. -/
def st0 : XrState :=
  { sessionRunning := true
    frameState := ⟨0⟩
    views := 0
    manualTextureViews := [(7, ⟨9, (1, 1), 2⟩)] }

/-- A concrete event sequence for exercising the session state machine. -/
def itemsW : List PollItem :=
  [.ok (.sessionStateChanged .ready), .ok (.eventsLost 3),
   .ok (.sessionStateChanged .focused), .ok (.sessionStateChanged .stopping),
   .ok (.sessionStateChanged .ready)]

end BevyOpenxr

namespace BevyOpenxr

theorem pollLoop_all_session (env : RtEnv) :
    ∀ (items : List PollItem) (r : Bool),
      ((pollLoop env items r).trace.all isSessionCall) = true := by
  intro items
  induction items with
  | nil => intro r; rfl
  | cons hd tl ih =>
    intro r
    cases hd with
    | fail => rfl
    | ok e =>
      cases e with
      | sessionStateChanged s =>
        cases s <;> simp only [pollLoop] <;> first
          | (split
             · simp only [List.all_cons, ih, isSessionCall, Bool.and_true]
             · rfl)
          | simp only [List.all_cons, ih, isSessionCall, Bool.and_true]
          | rfl
      | instanceLossPending => rfl
      | eventsLost n => simp only [pollLoop, ih]
      | interactionProfileChanged => simp only [pollLoop, ih]

theorem pollLoop_no_call (env : RtEnv) (items : List PollItem) (r : Bool)
    (c : RtCall) (hc : isSessionCall c = false) :
    c ∉ (pollLoop env items r).trace := by
  intro hmem
  have h := pollLoop_all_session env items r
  rw [List.all_eq_true] at h
  have := h c hmem
  rw [hc] at this
  exact Bool.false_ne_true this

theorem pollLoop_filter_frame (env : RtEnv) (items : List PollItem) (r : Bool) :
    (pollLoop env items r).trace.filter isFrameCall = [] := by
  rw [List.filter_eq_nil_iff]
  intro c hmem hfc
  have h := pollLoop_all_session env items r
  rw [List.all_eq_true] at h
  have hs := h c hmem
  cases c <;> simp_all [isSessionCall, isFrameCall]

theorem mtvGet_insert_self (k : Nat) (v : ManualTextureView) :
    ∀ l : List (Nat × ManualTextureView), mtvGet k (mtvInsert k v l) = some v := by
  intro l
  induction l with
  | nil => simp [mtvInsert, mtvGet]
  | cons hd tl ih =>
    obtain ⟨k2, v2⟩ := hd
    by_cases h : k = k2
    · simp [mtvInsert, mtvGet, h]
    · simp [mtvInsert, mtvGet, h, ih]

theorem mtvGet_insert_ne (k k2 : Nat) (v : ManualTextureView) (h : k ≠ k2) :
    ∀ l : List (Nat × ManualTextureView), mtvGet k (mtvInsert k2 v l) = mtvGet k l := by
  intro l
  induction l with
  | nil => simp [mtvInsert, mtvGet, h]
  | cons hd tl ih =>
    obtain ⟨k3, v3⟩ := hd
    by_cases h2 : k2 = k3
    · subst h2
      simp [mtvInsert, mtvGet, h]
    · by_cases h3 : k = k3 <;> simp [mtvInsert, mtvGet, h2, h3, ih]

end BevyOpenxr

namespace BevyOpenxr

theorem pollLoop_abort (env : RtEnv) (hb : env.beginSessionOk = true)
    (he : env.endSessionOk = true) :
    ∀ (items : List PollItem) (r : Bool),
      items.all (fun i => i != PollItem.fail) = true →
      items.any isAbortItem = true →
      (pollLoop env items r).exit = .aborted := by
  intro items
  induction items with
  | nil => intro r _ hany; simp at hany
  | cons hd tl ih =>
    intro r hall hany
    rw [List.all_cons] at hall
    rw [List.any_cons] at hany
    cases hd with
    | fail => simp at hall
    | ok e =>
      cases e with
      | sessionStateChanged s =>
        cases s with
        | ready =>
          simp only [pollLoop, hb, if_true]
          exact ih true (by simp_all) (by simp_all [isAbortItem])
        | stopping =>
          simp only [pollLoop, he, if_true]
          exact ih false (by simp_all) (by simp_all [isAbortItem])
        | exiting => rfl
        | lossPending => rfl
        | idle => exact ih r (by simp_all) (by simp_all [isAbortItem])
        | synchronized => exact ih r (by simp_all) (by simp_all [isAbortItem])
        | visible => exact ih r (by simp_all) (by simp_all [isAbortItem])
        | focused => exact ih r (by simp_all) (by simp_all [isAbortItem])
      | instanceLossPending => rfl
      | eventsLost n => exact ih r (by simp_all) (by simp_all [isAbortItem])
      | interactionProfileChanged => exact ih r (by simp_all) (by simp_all [isAbortItem])

theorem pollLoop_count (env : RtEnv) (hb : env.beginSessionOk = true)
    (he : env.endSessionOk = true) :
    ∀ (items : List PollItem) (r : Bool),
      countCall (.beginSession VIEW_TYPE) (pollLoop env items r).trace
        = countState .ready (observed items)
      ∧ countCall .endSession (pollLoop env items r).trace
        = countState .stopping (observed items)
      ∧ (pollLoop env items r).running = flagAfter r (observed items) := by
  intro items
  induction items with
  | nil => intro r; exact ⟨rfl, rfl, rfl⟩
  | cons hd tl ih =>
    intro r
    cases hd with
    | fail => exact ⟨rfl, rfl, rfl⟩
    | ok e =>
      cases e with
      | sessionStateChanged s =>
        cases s with
        | ready =>
          obtain ⟨h1, h2, h3⟩ := ih true
          refine ⟨?_, ?_, ?_⟩ <;>
            simp [pollLoop, hb, observed, isAbortItem, countCall, countState,
              flagAfter, h1, h2, h3]
        | stopping =>
          obtain ⟨h1, h2, h3⟩ := ih false
          refine ⟨?_, ?_, ?_⟩ <;>
            simp [pollLoop, he, observed, isAbortItem, countCall, countState,
              flagAfter, h1, h2, h3]
        | exiting =>
          refine ⟨?_, ?_, ?_⟩ <;>
            simp [pollLoop, observed, isAbortItem, countCall, countState, flagAfter]
        | lossPending =>
          refine ⟨?_, ?_, ?_⟩ <;>
            simp [pollLoop, observed, isAbortItem, countCall, countState, flagAfter]
        | idle =>
          simpa [pollLoop, observed, isAbortItem, countCall, countState, flagAfter]
            using ih r
        | synchronized =>
          simpa [pollLoop, observed, isAbortItem, countCall, countState, flagAfter]
            using ih r
        | visible =>
          simpa [pollLoop, observed, isAbortItem, countCall, countState, flagAfter]
            using ih r
        | focused =>
          simpa [pollLoop, observed, isAbortItem, countCall, countState, flagAfter]
            using ih r
      | instanceLossPending =>
        refine ⟨?_, ?_, ?_⟩ <;>
          simp [pollLoop, observed, isAbortItem, countCall, countState, flagAfter]
      | eventsLost n =>
        simpa [pollLoop, observed, isAbortItem, countCall, countState, flagAfter]
          using ih r
      | interactionProfileChanged =>
        simpa [pollLoop, observed, isAbortItem, countCall, countState, flagAfter]
          using ih r

end BevyOpenxr

namespace BevyOpenxr

/-- A concrete state in which the session is not yet running. -/
def stNotRunning : XrState := { st0 with sessionRunning := false }

theorem xr_begin_frame_eq_aborted (env : RtEnv) (st : XrState)
    (h : (pollLoop env env.pollItems st.sessionRunning).exit = .aborted) :
    xr_begin_frame env st =
      ⟨(pollLoop env env.pollItems st.sessionRunning).trace,
        (pollLoop env env.pollItems st.sessionRunning).log,
        { st with sessionRunning := (pollLoop env env.pollItems st.sessionRunning).running },
        false⟩ := by
  simp [xr_begin_frame, h]

theorem xr_begin_frame_eq_waitfail (env : RtEnv) (st : XrState)
    (h : (pollLoop env env.pollItems st.sessionRunning).exit = .normal)
    (hw : env.waitResult = none) :
    xr_begin_frame env st =
      ⟨(pollLoop env env.pollItems st.sessionRunning).trace ++ [.waitFrame],
        (pollLoop env env.pollItems st.sessionRunning).log ++ [.warn],
        { st with sessionRunning := (pollLoop env env.pollItems st.sessionRunning).running },
        false⟩ := by
  simp [xr_begin_frame, h, hw]

theorem xr_begin_frame_eq_ok (env : RtEnv) (st : XrState) (t : FrameTiming) (v : Nat)
    (h : (pollLoop env env.pollItems st.sessionRunning).exit = .normal)
    (hw : env.waitResult = some t) (hbf : env.beginFrameOk = true)
    (hl : env.locateResult = some v) :
    xr_begin_frame env st =
      ⟨(pollLoop env env.pollItems st.sessionRunning).trace
          ++ [.waitFrame, .beginFrame, .locateViews],
        (pollLoop env env.pollItems st.sessionRunning).log,
        { st with sessionRunning := (pollLoop env env.pollItems st.sessionRunning).running,
                  frameState := t, views := v },
        false⟩ := by
  simp [xr_begin_frame, h, hw, hbf, hl]

/-- Claim C10: if the `XrEnableStatus` resource is entirely absent, the
plugin's `ready()` reports `true` (absence is treated as non-Waiting). -/
theorem ready_true_when_status_absent (app : AppModel) (h : app.status = none) :
    ready app = true := by
  simp [ready, h]

theorem ready_true_when_status_absent_wit :
    ready ⟨none, false⟩ = true :=
  ready_true_when_status_absent ⟨none, false⟩ rfl

/-- Claim C8: the enable status is written exactly once during plugin
build — `Enabled` on initialization success and `Disabled` on failure —
and `ready()` reports `true` exactly when the status is not `Waiting`. -/
theorem enable_status_written_once_and_ready (initOk : Bool) (app : AppModel) :
    (build initOk app).2.length = 1
    ∧ (build initOk app).2
        = [if initOk then XrEnableStatus.enabled else XrEnableStatus.disabled]
    ∧ (build initOk app).1.status
        = some (if initOk then XrEnableStatus.enabled else XrEnableStatus.disabled)
    ∧ (∀ a : AppModel, ∀ s : XrEnableStatus, a.status = some s →
        (ready a = true ↔ s ≠ XrEnableStatus.waiting)) := by
  refine ⟨?_, ?_, ?_, ?_⟩
  · cases initOk <;> rfl
  · cases initOk <;> rfl
  · cases initOk <;> rfl
  · intro a s hs
    cases s <;> simp [ready, hs]

theorem enable_status_written_once_and_ready_wit :
    ready ⟨some XrEnableStatus.enabled, true⟩ = true ↔
      XrEnableStatus.enabled ≠ XrEnableStatus.waiting :=
  (enable_status_written_once_and_ready true ⟨none, false⟩).2.2.2
    ⟨some XrEnableStatus.enabled, true⟩ XrEnableStatus.enabled rfl

/-- Claim C3 counterexample: when a Ready event arrives and the
begin-session call fails against the runtime, `xr_begin_frame` panics
(`session.begin(VIEW_TYPE).unwrap()`): execution does not continue, so
the claimed fail-safe stall (log and carry on) is false on the code. -/
theorem begin_session_failure_panics_cex :
    (xr_begin_frame envBeginSessionFail stNotRunning).panicked = true
    ∧ (xr_begin_frame envBeginSessionFail stNotRunning).state.sessionRunning = false := by
  decide

/-- Claim C3 (amended): a begin-session or end-session runtime failure
panics (the `.unwrap()` crashes the frame loop) rather than being logged
and recovered; the `SessionRunningFlag` is indeed left at its prior
value, because the store happens only after a successful call. -/
theorem session_call_failure_amended (env : RtEnv) (st : XrState) :
    (env.beginSessionOk = false →
      ∀ rest, env.pollItems = .ok (.sessionStateChanged .ready) :: rest →
        (xr_begin_frame env st).panicked = true
        ∧ (xr_begin_frame env st).state.sessionRunning = st.sessionRunning)
    ∧ (env.endSessionOk = false →
      ∀ rest, env.pollItems = .ok (.sessionStateChanged .stopping) :: rest →
        (xr_begin_frame env st).panicked = true
        ∧ (xr_begin_frame env st).state.sessionRunning = st.sessionRunning) := by
  constructor
  · intro hb rest hpi
    simp [xr_begin_frame, hpi, pollLoop, hb]
  · intro he rest hpi
    simp [xr_begin_frame, hpi, pollLoop, he]

theorem session_call_failure_amended_wit :
    (xr_begin_frame envBeginSessionFail stNotRunning).panicked = true
    ∧ (xr_begin_frame envBeginSessionFail stNotRunning).state.sessionRunning
        = stNotRunning.sessionRunning :=
  (session_call_failure_amended envBeginSessionFail stNotRunning).1 rfl
    [] rfl

/-- Claim C7 counterexample: when the `poll_event` call itself fails,
`xr_begin_frame` panics on the `.unwrap()` before doing anything else —
the failure is not recovered as a skipped frame. -/
theorem poll_failure_panics_cex :
    (xr_begin_frame envPollFail st0).panicked = true
    ∧ (xr_begin_frame envPollFail st0).trace = [] := by
  decide

/-- Claim C7 (amended): a transport-level failure of the event-poll call
panics (`poll_event(..).unwrap()` crashes the loop) with no runtime call
issued for that tick; it is not a skip-and-retry. -/
theorem poll_failure_amended (env : RtEnv) (st : XrState) (rest : List PollItem)
    (h : env.pollItems = PollItem.fail :: rest) :
    (xr_begin_frame env st).panicked = true
    ∧ (xr_begin_frame env st).trace = [] := by
  simp [xr_begin_frame, h, pollLoop]

theorem poll_failure_amended_wit :
    (xr_begin_frame envPollFail stNotRunning).panicked = true
    ∧ (xr_begin_frame envPollFail stNotRunning).trace = [] :=
  poll_failure_amended envPollFail stNotRunning [] rfl

end BevyOpenxr

namespace BevyOpenxr

/-- Claim C2 counterexample: when `acquire_image` fails, `post_frame`
panics on the `.unwrap()` with nothing logged, and the frame bracket
does not continue to the end-frame call — contradicting the claimed
logged, best-effort degraded frame. -/
theorem acquire_failure_panics_cex :
    (post_frame envAcquireFail st0).panicked = true
    ∧ (post_frame envAcquireFail st0).log = []
    ∧ RtCall.endFrame ∉ (runTick .enabled envAcquireFail st0).trace := by
  decide

/-- Claim C2 (amended): only a failure of the final `swapchain.end` call
is logged and tolerated (the frame bracket completes); failures of
`acquire_image`, `wait_image` or `release_image` panic immediately with
nothing logged, aborting the remainder of the bracket. -/
theorem swapchain_failure_handling_amended (env : RtEnv) (st : XrState) :
    (env.releaseOk = true → env.endFrameOk = false →
      (end_frame env st).panicked = false
      ∧ LogEntry.warn ∈ (end_frame env st).log
      ∧ RtCall.endFrame ∈ (end_frame env st).trace)
    ∧ (env.acquireOk = false →
      (post_frame env st).panicked = true ∧ (post_frame env st).log = [])
    ∧ (env.acquireOk = true → env.waitImageOk = false →
      (post_frame env st).panicked = true ∧ (post_frame env st).log = [])
    ∧ (env.releaseOk = false →
      (end_frame env st).panicked = true ∧ (end_frame env st).log = []) := by
  refine ⟨?_, ?_, ?_, ?_⟩ <;> intros <;> simp_all [post_frame, end_frame]

theorem swapchain_failure_handling_amended_wit :
    (end_frame envEndFrameFail st0).panicked = false
    ∧ LogEntry.warn ∈ (end_frame envEndFrameFail st0).log
    ∧ RtCall.endFrame ∈ (end_frame envEndFrameFail st0).trace :=
  (swapchain_failure_handling_amended envEndFrameFail st0).1 rfl rfl

/-- Claim C9: each `post_frame` publish step writes the freshly acquired
backing views into exactly the two fixed handles
`LEFT_XR_TEXTURE_HANDLE` and `RIGHT_XR_TEXTURE_HANDLE`; every other
`ManualTextureViews` entry is left untouched. -/
theorem publish_views_fixed_handles (env : RtEnv) (st : XrState)
    (ha : env.acquireOk = true) (hw : env.waitImageOk = true) :
    (post_frame env st).panicked = false
    ∧ mtvGet LEFT_XR_TEXTURE_HANDLE (post_frame env st).state.manualTextureViews
        = some ⟨env.renderViews.1, env.resolution, env.format⟩
    ∧ mtvGet RIGHT_XR_TEXTURE_HANDLE (post_frame env st).state.manualTextureViews
        = some ⟨env.renderViews.2, env.resolution, env.format⟩
    ∧ ∀ k, k ≠ LEFT_XR_TEXTURE_HANDLE → k ≠ RIGHT_XR_TEXTURE_HANDLE →
        mtvGet k (post_frame env st).state.manualTextureViews
          = mtvGet k st.manualTextureViews := by
  refine ⟨?_, ?_, ?_, ?_⟩
  · simp [post_frame, ha, hw]
  · simp only [post_frame, ha, hw, if_true]
    rw [mtvGet_insert_ne _ _ _ (by decide), mtvGet_insert_self]
  · simp only [post_frame, ha, hw, if_true]
    rw [mtvGet_insert_self]
  · intro k h1 h2
    simp only [post_frame, ha, hw, if_true]
    rw [mtvGet_insert_ne _ _ _ h2, mtvGet_insert_ne _ _ _ h1]

theorem publish_views_fixed_handles_wit :
    mtvGet 7 (post_frame envAllOk st0).state.manualTextureViews
      = mtvGet 7 st0.manualTextureViews :=
  (publish_views_fixed_handles envAllOk st0 rfl rfl).2.2.2 7
    (by decide) (by decide)

/-- Claim C4: in a tick where event polling completes normally but
`FrameWaiter.wait()` fails, a warning is logged, the shared
`XrFrameState` slot keeps its prior value, the system does not panic,
and no begin-frame or locate-views call is issued by Stage A. -/
theorem wait_failure_skips_stage_a (env : RtEnv) (st : XrState)
    (hw : env.waitResult = none)
    (hp : (pollLoop env env.pollItems st.sessionRunning).exit = .normal) :
    (xr_begin_frame env st).panicked = false
    ∧ LogEntry.warn ∈ (xr_begin_frame env st).log
    ∧ (xr_begin_frame env st).state.frameState = st.frameState
    ∧ RtCall.beginFrame ∉ (xr_begin_frame env st).trace
    ∧ RtCall.locateViews ∉ (xr_begin_frame env st).trace := by
  have hbf := pollLoop_no_call env env.pollItems st.sessionRunning .beginFrame rfl
  have hlv := pollLoop_no_call env env.pollItems st.sessionRunning .locateViews rfl
  rw [xr_begin_frame_eq_waitfail env st hp hw]
  refine ⟨rfl, ?_, rfl, ?_, ?_⟩
  · simp
  · simp [List.mem_append, hbf]
  · simp [List.mem_append, hlv]

theorem wait_failure_skips_stage_a_wit :
    (xr_begin_frame envWaitFail st0).panicked = false
    ∧ LogEntry.warn ∈ (xr_begin_frame envWaitFail st0).log
    ∧ (xr_begin_frame envWaitFail st0).state.frameState = st0.frameState
    ∧ RtCall.beginFrame ∉ (xr_begin_frame envWaitFail st0).trace
    ∧ RtCall.locateViews ∉ (xr_begin_frame envWaitFail st0).trace :=
  wait_failure_skips_stage_a envWaitFail st0 rfl rfl

/-- Claim C5: over any sequence of polled events in which the session
begin/end runtime calls succeed, the poll loop issues exactly one
begin-session call (with the primary-stereo view configuration) per
observed Ready state and exactly one end-session call per observed
Stopping state, and the session-running flag afterwards equals the fold
of the observed Ready/Stopping transitions over its initial value. -/
theorem session_state_machine_counts (env : RtEnv) (items : List PollItem)
    (r : Bool) (hb : env.beginSessionOk = true) (he : env.endSessionOk = true) :
    countCall (.beginSession VIEW_TYPE) (pollLoop env items r).trace
      = countState .ready (observed items)
    ∧ countCall .endSession (pollLoop env items r).trace
      = countState .stopping (observed items)
    ∧ (pollLoop env items r).running = flagAfter r (observed items) :=
  pollLoop_count env hb he items r

theorem session_state_machine_counts_wit :
    countCall (.beginSession VIEW_TYPE) (pollLoop envAllOk itemsW false).trace
      = countState .ready (observed itemsW)
    ∧ countCall .endSession (pollLoop envAllOk itemsW false).trace
      = countState .stopping (observed itemsW)
    ∧ (pollLoop envAllOk itemsW false).running = flagAfter false (observed itemsW) :=
  session_state_machine_counts envAllOk itemsW false rfl rfl

/-- Claim C6: if the tick's event queue contains an Exiting or
LossPending session state or an InstanceLossPending event (and no poll
failure or session-call panic pre-empts it), the poll loop exits by the
early return and Stage A issues no wait-frame, begin-frame or
locate-views call for that tick. -/
theorem abort_event_stops_tick_calls (env : RtEnv) (st : XrState)
    (hb : env.beginSessionOk = true) (he : env.endSessionOk = true)
    (hnf : env.pollItems.all (fun i => i != PollItem.fail) = true)
    (hab : env.pollItems.any isAbortItem = true) :
    (pollLoop env env.pollItems st.sessionRunning).exit = .aborted
    ∧ (xr_begin_frame env st).panicked = false
    ∧ RtCall.waitFrame ∉ (xr_begin_frame env st).trace
    ∧ RtCall.beginFrame ∉ (xr_begin_frame env st).trace
    ∧ RtCall.locateViews ∉ (xr_begin_frame env st).trace := by
  have hex := pollLoop_abort env hb he env.pollItems st.sessionRunning hnf hab
  have hwf := pollLoop_no_call env env.pollItems st.sessionRunning .waitFrame rfl
  have hbf := pollLoop_no_call env env.pollItems st.sessionRunning .beginFrame rfl
  have hlv := pollLoop_no_call env env.pollItems st.sessionRunning .locateViews rfl
  rw [xr_begin_frame_eq_aborted env st hex]
  exact ⟨hex, rfl, hwf, hbf, hlv⟩

theorem abort_event_stops_tick_calls_wit :
    (pollLoop envExiting envExiting.pollItems st0.sessionRunning).exit = .aborted
    ∧ (xr_begin_frame envExiting st0).panicked = false
    ∧ RtCall.waitFrame ∉ (xr_begin_frame envExiting st0).trace
    ∧ RtCall.beginFrame ∉ (xr_begin_frame envExiting st0).trace
    ∧ RtCall.locateViews ∉ (xr_begin_frame envExiting st0).trace :=
  abort_event_stops_tick_calls envExiting st0 rfl rfl (by decide) (by decide)

end BevyOpenxr

namespace BevyOpenxr

/-- Claim C1 counterexample: in a tick where `wait()` fails, Stage A
returns early without a begin-frame call, yet the render-schedule
systems still run (their run condition reads only the enable status and
the running flag, which the early return does not change), so
`acquire_image` is issued with no preceding `begin_frame` in that frame. -/
theorem acquire_without_begin_frame_cex :
    RtCall.acquireImage ∈ (runTick .enabled envWaitFail st0).trace
    ∧ RtCall.beginFrame ∉ (runTick .enabled envWaitFail st0).trace := by
  decide

/-- Claim C1 (amended): when Stage A completes fully (polling exits
normally with the session running, `wait()` succeeds, `begin` and
`locate_views` succeed) and the swapchain calls succeed, the six runtime
calls of the frame bracket occur in exactly the fixed order; but when
`wait()` fails, Stage A returns early and the acquire/wait-image/
release/end-frame calls are still issued without a begin-frame call. -/
theorem frame_bracket_order_amended (status : XrEnableStatus) (env : RtEnv)
    (st : XrState) (hg : xr_only status st.sessionRunning = true)
    (hp : (pollLoop env env.pollItems st.sessionRunning).exit = .normal)
    (hr : (pollLoop env env.pollItems st.sessionRunning).running = true)
    (ha : env.acquireOk = true) (hwi : env.waitImageOk = true)
    (hre : env.releaseOk = true) :
    (∀ t : FrameTiming, env.waitResult = some t → env.beginFrameOk = true →
      ∀ v : Nat, env.locateResult = some v →
        (runTick status env st).trace.filter isFrameCall
          = [.waitFrame, .beginFrame, .acquireImage, .waitImage,
             .releaseImage, .endFrame])
    ∧ (env.waitResult = none →
        (runTick status env st).trace.filter isFrameCall
          = [.waitFrame, .acquireImage, .waitImage, .releaseImage, .endFrame]) := by
  have hfil := pollLoop_filter_frame env env.pollItems st.sessionRunning
  simp only [xr_only, Bool.and_eq_true, beq_iff_eq] at hg
  obtain ⟨hst, hrun⟩ := hg
  subst hst
  rw [hrun] at hfil
  have hp2 := hp
  have hr2 := hr
  rw [hrun] at hp2 hr2
  constructor
  · intro t hw hbf v hl
    cases henf : env.endFrameOk <;>
      simp [runTick, xr_only, hrun, xr_begin_frame_eq_ok env st t v hp hw hbf hl,
        post_frame, end_frame, ha, hwi, hre, henf, hr2, List.filter_append, hfil,
        isFrameCall]
  · intro hw
    cases henf : env.endFrameOk <;>
      simp [runTick, xr_only, hrun, xr_begin_frame_eq_waitfail env st hp hw,
        post_frame, end_frame, ha, hwi, hre, henf, hr2, List.filter_append, hfil,
        isFrameCall]

theorem frame_bracket_order_amended_wit :
    (runTick .enabled envAllOk st0).trace.filter isFrameCall
      = [.waitFrame, .beginFrame, .acquireImage, .waitImage,
         .releaseImage, .endFrame] :=
  (frame_bracket_order_amended .enabled envAllOk st0 rfl rfl rfl rfl rfl rfl).1
    ⟨100⟩ rfl rfl 5 rfl

end BevyOpenxr
